import Mathlib

/-!
Verification of the simple-opds Calibre OPDS server (src/opds_server.py,
src/encoding_utils.py) against its natural-language specification.

The shallow embedding below translates the Python source into Lean:
pure string manipulation becomes functions on `String` / `List Char`,
the SQLite queries become list operations over an explicit library state,
the filesystem becomes an explicit oracle record, and the Python
try/except structure of the encoding utilities becomes `Except` plumbing
with explicit handlers.
-/

/- ### Basic character/string helpers shared by several embedded functions -/

/-- ASCII lowering of a character list (models Python `str.lower()` on the
ASCII format codes and extensions that appear in the source). -/
def lower_chars (cs : List Char) : List Char := cs.map Char.toLower

/-- Python `a.startswith(b)` on character lists. -/
def starts_with_ch : List Char → List Char → Bool
  | _, [] => true
  | [], _ :: _ => false
  | a :: as, b :: bs => a == b && starts_with_ch as bs

/-- Python `a.endswith(b)` on character lists. -/
def ends_with_ch (a b : List Char) : Bool := starts_with_ch a.reverse b.reverse

/-- Python `b in a` (substring containment) on character lists. -/
def contains_sub : List Char → List Char → Bool
  | [], pat => pat.isEmpty
  | h :: t, pat => starts_with_ch (h :: t) pat || contains_sub t pat

/-- Python `str.lower()` as a `String` operation (ASCII case folding). -/
def lower_str (s : String) : String := (s.toList.map Char.toLower).asString

/-- Python `str.upper()` as a `String` operation (ASCII case folding). -/
def upper_str (s : String) : String := (s.toList.map Char.toUpper).asString

/-- Python `s.endswith(t)` for strings. -/
def py_endswith (s t : String) : Bool := ends_with_ch s.toList t.toList

/-- Python `t in s` (substring containment) for strings. -/
def py_contains (s t : String) : Bool := contains_sub s.toList t.toList

/-- The whitespace characters stripped by Python `str.strip()`
(the ASCII ones; the titles handled by the server only contain these). -/
def py_ws : List Char := [' ', '\t', '\n', '\r', '\x0b', '\x0c']

/-- Python `str.strip()` on a character list. -/
def py_strip (cs : List Char) : List Char :=
  ((cs.dropWhile (fun c => py_ws.contains c)).reverse.dropWhile
    (fun c => py_ws.contains c)).reverse

/- ### Encoding utilities (src/encoding_utils.py) -/

/-- A Python value as seen by `safe_convert_text`: `None`, a `str`,
a `bytes` (list of byte values), or any other object carried together
with its `str()` rendering. -/
inductive PyVal where
  | pynone
  | str (s : String)
  | bytes (bs : List Nat)
  | other (srepr : String)
deriving DecidableEq

/-- The exception classes that the encoding code can raise:
`UnicodeEncodeError`/`UnicodeDecodeError` on strict codec operations and
`LookupError` on an unknown codec name. -/
inductive PyErr where
  | unicodeError
  | lookupError
deriving DecidableEq

/-- The codec operations used by `convert_gbk_to_utf8` whose behaviour
depends on external codec tables (chardet, GBK, Big5).  They are kept
abstract: every theorem about the encoding layer quantifies over them.
A strict decode returns `none` when it would raise `UnicodeDecodeError`;
the by-name replace-mode decode returns `none` when the codec name is
unknown (`LookupError`). -/
structure Codec where
  decode_gbk_strict : List Nat → Option String
  decode_big5_strict : List Nat → Option String
  decode_gbk_replace : List Nat → String
  chardet_detect : List Nat → Option String
  decode_by_name_replace : String → List Nat → Option String

/-- Models `text.encode('latin-1')`: succeeds exactly when every character is
below U+0100, yielding the corresponding byte values; otherwise raises
`UnicodeEncodeError` (modelled as `none`). -/
def encode_latin1 (s : String) : Option (List Nat) :=
  if s.toList.all (fun c => c.val ≤ 255) then
    some (s.toList.map (fun c => c.toNat))
  else none

/-- The mojibake marker check `'�' in text or '□' in text` at line 24
of encoding_utils.py. -/
def has_mojibake (s : String) : Bool :=
  s.toList.contains '�' || s.toList.contains '□'

/-- Python truthiness of the values reaching `if not text:`
(line 17 of encoding_utils.py). -/
def py_falsy : PyVal → Bool
  | .pynone => true
  | .str s => s == ""
  | .bytes bs => bs.isEmpty
  | .other _ => false

/-- A Python `try: x except: handler` block over our exception type. -/
def py_try (x : Except PyErr PyVal) (handler : PyErr → Except PyErr PyVal) :
    Except PyErr PyVal :=
  match x with
  | .error e => handler e
  | .ok a => .ok a

/-- Lines 62-70 of encoding_utils.py (also the inner chain of the str
path, lines 29-41): try GBK strict, on `UnicodeDecodeError` try Big5
strict, on `UnicodeDecodeError` fall back to GBK replace mode (total).
The `except UnicodeDecodeError` handlers are fused into the `none`
branches. -/
def decode_strict_chain (c : Codec) (bs : List Nat) : Except PyErr PyVal :=
  match c.decode_gbk_strict bs with
  | some d => .ok (.str d)
  | none =>
    match c.decode_big5_strict bs with
    | some d => .ok (.str d)
    | none => .ok (.str (c.decode_gbk_replace bs))

/-- Models `text.decode(name, errors='replace')` where an unknown codec name
raises `LookupError`. -/
def decode_named (c : Codec) (name : String) (bs : List Nat) :
    Except PyErr PyVal :=
  match c.decode_by_name_replace name bs with
  | some d => .ok (.str d)
  | none => .error .lookupError

/-- The body of `convert_gbk_to_utf8` inside its outer `try:`
(lines 17-70 of encoding_utils.py). -/
def convert_body (c : Codec) (v : PyVal) : Except PyErr PyVal :=
  if py_falsy v then .ok v
  else
    match v with
    | .str t =>
      if has_mojibake t then
        -- lines 26-44: re-encode as latin-1 and re-decode; the
        -- `except (UnicodeEncodeError, UnicodeDecodeError): return text`
        -- handler is the `none` branch of the encode
        match encode_latin1 t with
        | none => .ok (.str t)
        | some bs => decode_strict_chain c bs
      else .ok (.str t)
    | .bytes bs =>
      match c.chardet_detect bs with
      | some enc =>
        if enc = "" then decode_strict_chain c bs
        else
          let encoding := lower_str enc
          if py_contains encoding "gb" then decode_named c enc bs
          else if py_contains encoding "big5" || py_contains encoding "cp950" then
            decode_named c "big5" bs
          else decode_named c enc bs
      | none => decode_strict_chain c bs
    | _ => .ok .pynone   -- non-str/bytes fall off the end: implicit `return None`

/-- Function `convert_gbk_to_utf8` (lines 11-73): the body wrapped in the outer
`try: ... except Exception: return text`. -/
def convert_gbk_to_utf8 (c : Codec) (v : PyVal) : Except PyErr PyVal :=
  py_try (convert_body c v) (fun _ => .ok v)

/-- Function `safe_convert_text` (lines 75-86): `None → ""`, non-str/bytes →
`str(value)`, otherwise delegate to `convert_gbk_to_utf8`. -/
def safe_convert_text (c : Codec) (v : PyVal) : Except PyErr PyVal :=
  match v with
  | .pynone => .ok (.str "")
  | .other r => .ok (.str r)
  | v => convert_gbk_to_utf8 c v

/- ### Catalog data model (the SQLite schema slice used by /opds/books) -/

/-- A row of the `books` table as selected by `_get_filtered_books`
(only the columns relevant to filtering, ordering and identification are
modelled; the remaining scalar columns ride along unchanged). -/
structure Book where
  id : Nat
  title : String
  author_sort : String
  last_modified : Int
deriving DecidableEq

/-- The library database state: the `books` table in storage order plus
the link tables, exposed as the per-book lookups the EXISTS subqueries
perform (author names via books_authors_link, series names via
books_series_link, tag names via books_tags_link). -/
structure Library where
  books : List Book
  authorsOf : Nat → List String
  seriesOf : Nat → List String
  tagsOf : Nat → List String

/-- The four recognized query parameters of /opds/books.  `none` models
an absent parameter (`request.args.get` returning `None`). -/
structure Filters where
  search : Option String
  author : Option String
  series : Option String
  tag : Option String

/-- Python truthiness of a query parameter (`if search:` is false for
both `None` and the empty string). -/
def truthy (o : Option String) : Bool :=
  match o with
  | none => false
  | some s => !s.isEmpty

/-- One SQL condition pushed into the WHERE clause by `opds_books`
(lines 637-652 of opds_server.py), with its bound parameter. -/
inductive Cond where
  | searchC (s : String)
  | authorC (s : String)
  | seriesC (s : String)
  | tagC (s : String)
deriving DecidableEq

/-- The SQLite substring match `col LIKE '%pat%'`, ASCII case-insensitive. -/
def sql_like (col pat : String) : Bool :=
  contains_sub (lower_chars col.toList) (lower_chars pat.toList)

/-- Truth of one condition at a book row, against the library state.
`searchC` is `(b.title LIKE ? OR b.author_sort LIKE ?)`; the other three
are the EXISTS subqueries over the corresponding link tables with exact
name equality. -/
def cond_holds (lib : Library) (c : Cond) (b : Book) : Bool :=
  match c with
  | .searchC s => sql_like b.title s || sql_like b.author_sort s
  | .authorC s => (lib.authorsOf b.id).contains s
  | .seriesC s => (lib.seriesOf b.id).contains s
  | .tagC s => (lib.tagsOf b.id).contains s

/-- The step `if param: filters.append(cond)` for one parameter. -/
def opt_cond (o : Option String) (mk : String → Cond) : List Cond :=
  if truthy o then [mk (o.getD "")] else []

/-- The `filters` list built by `opds_books` (lines 634-652): search,
author, series, tag conditions in that order, to be AND-joined. -/
def list_filters (F : Filters) : List Cond :=
  opt_cond F.search .searchC ++ opt_cond F.author .authorC
    ++ opt_cond F.series .seriesC ++ opt_cond F.tag .tagC

/-- The keyword preceding a condition in the assembled SQL text:
`WHERE` for the first, `AND` for the rest. -/
inductive Kw where
  | whereKw
  | andKw
deriving DecidableEq

/-- The WHERE clause of the listing query (line 667):
`" WHERE " + " AND ".join(filters)`. -/
def list_clause (F : Filters) : List (Kw × Cond) :=
  match list_filters F with
  | [] => []
  | c :: rest => (.whereKw, c) :: rest.map (fun c' => (.andKw, c'))

/-- The WHERE clause of the count query, rebuilt by hand in
`_get_filtered_count` (lines 696-725): each active parameter re-appends
its condition, choosing `WHERE` or `AND` by testing which earlier
parameters were active.  The whole block is guarded by `if filters:`,
which closes over the listing path's `filters` list. -/
def count_clause (F : Filters) : List (Kw × Cond) :=
  if list_filters F ≠ [] then
    (if truthy F.search then [(Kw.whereKw, Cond.searchC (F.search.getD ""))] else [])
    ++ (if truthy F.author then
          [((if !truthy F.search then Kw.whereKw else Kw.andKw),
            Cond.authorC (F.author.getD ""))] else [])
    ++ (if truthy F.series then
          [((if !truthy F.search && !truthy F.author then Kw.whereKw else Kw.andKw),
            Cond.seriesC (F.series.getD ""))] else [])
    ++ (if truthy F.tag then
          [((if !truthy F.search && !truthy F.author && !truthy F.series
             then Kw.whereKw else Kw.andKw),
            Cond.tagC (F.tag.getD ""))] else [])
  else []

/-- A row satisfies an assembled WHERE clause iff it satisfies every
AND-joined condition (the keywords are syntax only). -/
def clause_holds (lib : Library) (items : List (Kw × Cond)) (b : Book) : Bool :=
  items.all (fun kc => cond_holds lib kc.2 b)

/-- The ORDER BY relation of the listing query: `b.last_modified DESC`.
The query specifies no tie-break, so ties keep table order (the sort
below is stable). -/
def book_ord (a b : Book) : Prop := b.last_modified ≤ a.last_modified

instance : DecidableRel book_ord :=
  fun a b => inferInstanceAs (Decidable (b.last_modified ≤ a.last_modified))

instance : IsTotal Book book_ord :=
  ⟨fun a b => le_total b.last_modified a.last_modified⟩

instance : IsTrans Book book_ord :=
  ⟨fun _ _ _ h1 h2 => le_trans h2 h1⟩

/-- Function `_get_filtered_books` (lines 655-687): filter by the assembled WHERE
clause, `ORDER BY b.last_modified DESC` (stable over table order),
`LIMIT ? OFFSET ?`.  `SELECT DISTINCT` over books alone is the identity
because `b.id` is the primary key. -/
def _get_filtered_books (lib : Library) (F : Filters) (limit offset : Nat) :
    List Book :=
  ((List.insertionSort book_ord
      (lib.books.filter (fun b => clause_holds lib (list_clause F) b))).drop
    offset).take limit

/-- Function `_get_filtered_count` (lines 689-728):
`SELECT COUNT(DISTINCT b.id) FROM books b` with the hand-rebuilt WHERE
clause. -/
def _get_filtered_count (lib : Library) (F : Filters) : Nat :=
  (((lib.books.filter (fun b => clause_holds lib (count_clause F) b)).map
    Book.id).dedup).length

/- ### Parameter parsing and clamping (/opds/books lines 630-631,
/api/books lines 1117-1118) -/

/-- Decimal digits to a natural number. -/
def digits_to_nat (cs : List Char) : Nat :=
  cs.foldl (fun n c => 10 * n + (c.toNat - 48)) 0

/-- The core of Python `int(str)`: an optional sign followed by at least
one decimal digit parses, anything else raises `ValueError` (modelled as
`none`). -/
def py_int_of_chars : List Char → Option Int
  | [] => none
  | '-' :: rest =>
    if rest ≠ [] ∧ rest.all Char.isDigit then some (-(digits_to_nat rest : Int))
    else none
  | '+' :: rest =>
    if rest ≠ [] ∧ rest.all Char.isDigit then some (digits_to_nat rest : Int)
    else none
  | cs =>
    if cs.all Char.isDigit then some (digits_to_nat cs : Int) else none

/-- Models `int(request.args.get(name, default))`: an absent parameter takes the
default, a well-formed integer string parses, anything else raises
`ValueError` (modelled as `.error ()`), which no route handler catches. -/
def get_int_param (p : Option String) (dflt : Int) : Except Unit Int :=
  match p with
  | none => .ok dflt
  | some s =>
    match py_int_of_chars s.toList with
    | some n => .ok n
    | none => .error ()

/-- The effective limit of /opds/books: `min(int(...), 100)` (line 630). -/
def opds_books_limit (raw : Int) : Int := min raw 100

/-- The effective offset of /opds/books: `int(...)`, unmodified (line 631). -/
def opds_books_offset (raw : Int) : Int := raw

/-- The effective limit of /api/books: `int(...)`, unmodified (line 1117). -/
def api_books_limit (raw : Int) : Int := raw

/- ### Pagination links and feed assembly (/opds/books lines 751-799) -/

/-- One pagination link of the books feed, reduced to its relation and
the offset encoded in its href. -/
structure PageLink where
  rel : String
  offset : Int
deriving DecidableEq

/-- The links list built by `opds_books` (lines 751-776): a self link,
a next link iff `offset + limit < total_books` at offset
`offset + limit`, and a previous link iff `offset > 0` at offset
`max(0, offset - limit)`. -/
def pagination_links (total_books offset limit : Int) : List PageLink :=
  [⟨"self", offset⟩]
  ++ (if offset + limit < total_books then [⟨"next", offset + limit⟩] else [])
  ++ (if offset > 0 then [⟨"previous", max 0 (offset - limit)⟩] else [])

/-- Line 780: `total_pages = (total_books + limit - 1) // limit`. -/
def total_pages (total_books limit : Nat) : Nat :=
  (total_books + limit - 1) / limit

/-- Line 779: `current_page = offset // limit + 1`. -/
def current_page (offset limit : Nat) : Nat := offset / limit + 1

/-- The feed title built in lines 782-791: the active facet (checked in
the order author, series, tag, search) with the page fraction. -/
def feed_title (F : Filters) (curr tot : Nat) : String :=
  if truthy F.author then
    let a := F.author.getD ""
    s!"作者: {a} - 第 {curr}/{tot} 页"
  else if truthy F.series then
    let a := F.series.getD ""
    s!"系列: {a} - 第 {curr}/{tot} 页"
  else if truthy F.tag then
    let a := F.tag.getD ""
    s!"标签: {a} - 第 {curr}/{tot} 页"
  else if truthy F.search then
    let a := F.search.getD ""
    s!"搜索结果: \"{a}\" - 第 {curr}/{tot} 页"
  else
    s!"最新书籍列表 - 第 {curr}/{tot} 页"

/-- The observable content of a books entry feed: title, the
opds:totalResults / startIndex / itemsPerPage triple (lines 793-797),
the entries, and the pagination links. -/
structure FeedPage where
  title : String
  total_results : Nat
  start_index : Nat
  items_per_page : Nat
  entries : List Book
  links : List PageLink
deriving DecidableEq

/-- The /opds/books route body (lines 730-800) for non-negative, already
parsed limit/offset: run the two queries and assemble the feed. -/
def opds_books_feed (lib : Library) (F : Filters) (limit offset : Nat) :
    FeedPage :=
  let books := _get_filtered_books lib F limit offset
  let total_books := _get_filtered_count lib F
  { title := feed_title F (current_page offset limit) (total_pages total_books limit)
    total_results := total_books
    start_index := offset
    items_per_page := limit
    entries := books
    links := pagination_links (total_books : Int) (offset : Int) (limit : Int) }

/- ### Format/extension tables and download filename synthesis
(download_book, lines 974-1111; create_entry, lines 541-556) -/

/-- The fixed format → extension table (identical literals at lines
549-553, 1011-1015 and 1056-1060 of opds_server.py). -/
def format_extension_map : List (String × String) :=
  [("EPUB", ".epub"), ("PDF", ".pdf"), ("MOBI", ".mobi"), ("AZW3", ".azw3"),
   ("FB2", ".fb2"), ("RTF", ".rtf"), ("TXT", ".txt"), ("HTML", ".html"),
   ("LIT", ".lit")]

/-- Python `dict.get(key, default)` over an association list. -/
def map_get (m : List (String × String)) (k : String) (dflt : String) : String :=
  match m.find? (fun p => p.1 == k) with
  | some p => p.2
  | none => dflt

/-- The extension used while resolving the physical file (line 1016):
`format_extension_map.get(fmt.upper(), '')` — the default is the EMPTY
string, not '.epub'. -/
def resolution_ext (code : String) : String :=
  map_get format_extension_map (upper_str code) ""

/-- The extension used when synthesizing the HTTP-visible download
filename (lines 1056-1060) and the feed-entry filename (line 554):
`…get(fmt.upper(), '.epub')`. -/
def download_ext (code : String) : String :=
  map_get format_extension_map (upper_str code) ".epub"

/-- The format → MIME table of `get_mime_type` (lines 579-587). -/
def mime_types : List (String × String) :=
  [("EPUB", "application/epub+zip"), ("PDF", "application/pdf"),
   ("MOBI", "application/x-mobipocket-ebook"),
   ("AZW3", "application/vnd.amazon.ebook"),
   ("FB2", "application/x-fictionbook+xml"), ("RTF", "application/rtf"),
   ("TXT", "text/plain"), ("HTML", "text/html"),
   ("LIT", "application/x-ms-reader")]

/-- Function `get_mime_type` (lines 579-587). -/
def get_mime_type (code : String) : String :=
  map_get mime_types (upper_str code) "application/octet-stream"

/-- The path-illegal characters stripped from titles:
`re.sub(r'[<>:"/\\|?*]', '', ...)` (lines 545, 1071). -/
def illegal_chars : List Char := ['<', '>', ':', '"', '/', '\\', '|', '?', '*']

/-- The substitution `re.sub(r'[<>:"/\\|?*]', '', s)`. -/
def strip_illegal (cs : List Char) : List Char :=
  cs.filter (fun c => !(illegal_chars.contains c))

/-- Python `s.replace(' ', '_')`. -/
def spaces_to_under (cs : List Char) : List Char :=
  cs.map (fun c => if c == ' ' then '_' else c)

/-- The index of the last '.' in a name, if any. -/
def rfind_dot (cs : List Char) : Option Nat :=
  (cs.reverse.findIdx? (fun c => c == '.')).map (fun k => cs.length - 1 - k)

/-- The base-name part of `os.path.splitext` on a bare filename: split at
the last dot unless every character before it is also a dot (a leading
"dotfile" name has no extension). -/
def splitext_base (cs : List Char) : List Char :=
  match rfind_dot cs with
  | none => cs
  | some j => if (cs.take j).any (fun c => c ≠ '.') then cs.take j else cs

/-- The fallback download filename `f"书籍_{book_id}{format_extension}"`
(lines 1069, 1081). -/
def fallback_name (book_id : Nat) (ext : List Char) : List Char :=
  ('书' :: '籍' :: '_' :: Nat.toDigits 10 book_id) ++ ext

/-- The download-filename synthesis of `download_book` (lines 1056-1082),
taking the already-normalized title (`safe_title`): empty/whitespace-only
titles fall back to `书籍_{id}{ext}`; otherwise strip illegal characters,
replace spaces, append the extension unless already present
case-insensitively, and re-check that the base name is not empty, not the
bare extension and not whitespace-only. -/
def safe_download_filename (book_id : Nat) (fmt_code : String)
    (safe_title : List Char) : List Char :=
  let ext := (download_ext fmt_code).toList
  if safe_title = [] ∨ py_strip safe_title = [] then fallback_name book_id ext
  else
    let f1 := spaces_to_under (strip_illegal safe_title)
    let f2 := if ends_with_ch (lower_chars f1) (lower_chars ext) then f1
              else f1 ++ ext
    let base := splitext_base f2
    if base = [] ∨ base = ext ∨ py_strip base = [] then fallback_name book_id ext
    else f2

/- ### File resolution and the download route (lines 974-1111) -/

/-- The filesystem oracle used by `download_book`: existence of a
(normalized) path, existence of a directory, and a directory listing.
`os.path.normpath` is folded into the oracle's interpretation of paths. -/
structure FS where
  file_at : String → Bool
  dir_at : String → Bool
  list_dir : String → List String

/-- Models `os.path.join` for the forward-slash paths the server builds. -/
def path_join (a b : String) : String := a ++ "/" ++ b

/-- A row of the `data` table (`get_book_formats`, lines 391-409):
format code, uncompressed size, on-record filename. -/
structure DataFormat where
  format : String
  size : Nat
  filename : String
deriving DecidableEq

/-- The book projection `download_book` consumes (from
`get_book_detail`). -/
structure BookDetail where
  id : Nat
  title : String
  path : String
  formats : List DataFormat
deriving DecidableEq

/-- The candidate list `possible_files` of `download_book`
(lines 1004-1032): the on-record filename, then the on-record filename
with the resolution extension appended when missing (only if that
extension is nonempty), then — since `base_filename` is always `None`
(line 985) — the directory-scan candidates whose names end with the
resolution extension.  The `base_filename`-guarded candidates (lines
1021-1022 and 1031-1032) are dead code and contribute nothing. -/
def possible_files (fs : FS) (base_path book_path db_filename fmt : String) :
    List String :=
  let ext := resolution_ext fmt
  let book_dir := path_join base_path book_path
  [path_join book_dir db_filename]
  ++ (if ext ≠ "" ∧ ¬ py_endswith (lower_str db_filename) (lower_str ext) then
        [path_join book_dir (db_filename ++ ext)]
      else [])
  ++ (if fs.dir_at book_dir then
        (fs.list_dir book_dir).filterMap (fun file =>
          if ext ≠ "" ∧ py_endswith (lower_str file) (lower_str ext) then
            some (path_join book_dir file)
          else none)
      else [])

/-- Python `', '.join(available_formats)`. -/
def join_comma (l : List String) : String := String.intercalate ", " l

/-- The 404 message of lines 996-997: it names the requested format and
every available format code of the book. -/
def format_not_found_msg (requested : String) (avail : List String) : String :=
  "Format " ++ requested ++ " not found for this book. Available formats: "
    ++ join_comma avail

/-- The outcome of the download route for an existing book. -/
inductive DownloadOutcome where
  | formatNotFound (msg : String)
  | fileNotFound (msg : String)
  | success (file : String) (download_name : List Char) (mime : String)
deriving DecidableEq

/-- Extract the string payload of a converted title (`safe_convert_text`
on a `str` always yields `.ok (.str _)`; the other arms are unreachable
there, see `safe_convert_str_unchanged` below). -/
def pyval_str : Except PyErr PyVal → String
  | .ok (.str s) => s
  | _ => ""

/-- Function `download_book` (lines 974-1111) for an existing book: find the
requested format among the book's formats by case-insensitive code
comparison; if absent, answer 404 naming the requested format and the
available ones (no path resolution is attempted).  Otherwise resolve the
first existing candidate path and, on success, attach the synthesized
download filename and MIME type. -/
def download_book (c : Codec) (fs : FS) (base_path : String)
    (book : BookDetail) (url_name : String) : DownloadOutcome :=
  let requested := upper_str url_name
  match book.formats.find? (fun f => upper_str f.format == requested) with
  | none =>
    .formatNotFound
      (format_not_found_msg requested (book.formats.map DataFormat.format))
  | some tf =>
    let book_path := (book.path.toList.map (fun ch => if ch == '\\' then '/' else ch)).asString
    match (possible_files fs base_path book_path tf.filename tf.format).find?
        (fun p => fs.file_at p) with
    | none =>
      .fileNotFound ("File not found for book " ++ toString book.id
        ++ " in format " ++ tf.format)
    | some full_path =>
      let safe_title := pyval_str (safe_convert_text c (.str book.title))
      .success full_path
        (safe_download_filename book.id tf.format safe_title.toList)
        (get_mime_type tf.format)

/- ### Fixtures used by concrete witnesses and counterexamples -/

/-- A filesystem whose book directory exists and contains one epub file,
with no path reported as an existing file. -/
def fs_djvu : FS :=
  { file_at := fun _ => false
    dir_at := fun _ => true
    list_dir := fun _ => ["other.epub"] }

/-- An empty filesystem. -/
def fs_empty : FS :=
  { file_at := fun _ => false
    dir_at := fun _ => false
    list_dir := fun _ => [] }

/-- A codec whose fallible operations all fail. -/
def codec_trivial : Codec :=
  { decode_gbk_strict := fun _ => none
    decode_big5_strict := fun _ => none
    decode_gbk_replace := fun _ => "�"
    chardet_detect := fun _ => none
    decode_by_name_replace := fun _ _ => none }

/-- A book with EPUB and PDF formats only. -/
def book_42 : BookDetail :=
  { id := 42, title := "三体", path := "Liu Cixin/San Ti (42)"
    formats := [⟨"EPUB", 1000, "San Ti - Liu Cixin"⟩,
                ⟨"PDF", 2000, "San Ti - Liu Cixin"⟩] }

/-- A codec whose chardet step names a codec unknown to the decoder, so
the replace-mode decode raises `LookupError`. -/
def codec_lookup_fail : Codec :=
  { codec_trivial with chardet_detect := fun _ => some "x-unknown" }

/-- A small concrete library with distinct ids. -/
def lib_demo : Library :=
  { books := [⟨1, "Alpha", "Adams, Ann", 10⟩, ⟨2, "Beta", "Brown, Bob", 5⟩,
              ⟨3, "Gamma", "Adams, Ann", 7⟩]
    authorsOf := fun i => if i = 2 then ["Bob Brown"] else ["Ann Adams"]
    seriesOf := fun _ => []
    tagsOf := fun _ => [] }

/-- An author filter for the demo library. -/
def filters_ann : Filters := ⟨none, some "Ann Adams", none, none⟩

/-- The empty filter set. -/
def no_filters : Filters := ⟨none, none, none, none⟩

/-- The ordering key the specification claims: last-modified descending
with ties broken by id ascending. -/
def claimed_page_order (a b : Book) : Prop :=
  b.last_modified < a.last_modified
  ∨ (a.last_modified = b.last_modified ∧ a.id < b.id)

instance : DecidableRel claimed_page_order := fun a b => by
  unfold claimed_page_order
  infer_instance

/-- Two books sharing a last-modified timestamp, stored with the larger
id first. -/
def lib_ties : Library :=
  { books := [⟨2, "B", "", 5⟩, ⟨1, "A", "", 5⟩]
    authorsOf := fun _ => []
    seriesOf := fun _ => []
    tagsOf := fun _ => [] }

/-- An empty library. -/
def lib_empty : Library :=
  { books := []
    authorsOf := fun _ => []
    seriesOf := fun _ => []
    tagsOf := fun _ => [] }

/-- The zero-match author filter of the specification scenario. -/
def filters_liu : Filters := ⟨none, some "Liu Cixin", none, none⟩

/- ### C6: next/previous pagination links -/

/-- C6 (confirmed): in every books feed built from
`(totalResults, startIndex, itemsPerPage)`, a "next" link is present iff
`startIndex + itemsPerPage < totalResults`, a "previous" link is present
iff `startIndex > 0`, every previous link points at offset
`max 0 (startIndex - itemsPerPage)`, and the scenario
`limit=20, offset=40, totalResults=45` yields exactly a self link and a
previous link at offset 20 (no next link). -/
theorem pagination_links_next_prev (total offset limit : Int) :
    ((∃ o, PageLink.mk "next" o ∈ pagination_links total offset limit) ↔
      offset + limit < total)
    ∧ ((∃ o, PageLink.mk "previous" o ∈ pagination_links total offset limit) ↔
      offset > 0)
    ∧ (∀ o, PageLink.mk "previous" o ∈ pagination_links total offset limit →
      o = max 0 (offset - limit))
    ∧ pagination_links 45 40 20 = [⟨"self", 40⟩, ⟨"previous", 20⟩] := by
  refine ⟨?_, ?_, ?_, by decide⟩ <;>
    rcases lt_or_ge (offset + limit) total with h1 | h1 <;>
    rcases lt_or_ge 0 offset with h2 | h2 <;>
    simp [pagination_links, h1, h2, not_lt_of_ge, PageLink.mk.injEq]

/-- Closed instance of `pagination_links_next_prev`, discharging its
embedded implications at the scenario values. -/
theorem pagination_links_next_prev_witness :
    (∃ o, PageLink.mk "previous" o ∈ pagination_links 45 40 20)
    ∧ ¬ (∃ o, PageLink.mk "next" o ∈ pagination_links 45 40 20) := by
  refine ⟨(pagination_links_next_prev 45 40 20).2.1.mpr (by decide), ?_⟩
  intro hnext
  exact absurd ((pagination_links_next_prev 45 40 20).1.mp hnext) (by decide)

/- ### C2: pagination parameter clamping -/

/-- C2 counterexample: the claimed clamp of limit into [1,100] and offset
into [0,∞) fails — `opds_books` computes `min(raw, 100)` with no lower
bound, passes the offset through unchanged, and a non-integer parameter
raises ValueError instead of being clamped. -/
theorem pagination_clamp_cex :
    opds_books_limit 0 = 0 ∧ ¬ (1 ≤ opds_books_limit 0)
    ∧ opds_books_offset (-5) = -5 ∧ ¬ (0 ≤ opds_books_offset (-5))
    ∧ get_int_param (some "abc") 20 = .error () := by
  refine ⟨by decide, by decide, by decide, by decide, rfl⟩

/-- C2 (amended): the book-listing route clamps limit only from above —
the effective limit is `min(raw, 100)`, so it never exceeds 100 and any
raw value at most 100 (including 0 and negatives) passes through; the
offset is not clamped at all, and the /api/books route applies no
clamping whatsoever. -/
theorem pagination_clamp_amended (raw : Int) :
    opds_books_limit raw ≤ 100
    ∧ (raw ≤ 100 → opds_books_limit raw = raw)
    ∧ opds_books_offset raw = raw
    ∧ api_books_limit raw = raw :=
  ⟨min_le_right _ _, fun h => min_eq_left h, rfl, rfl⟩

/-- Closed instance of `pagination_clamp_amended`. -/
theorem pagination_clamp_amended_witness :
    opds_books_limit 42 ≤ 100 ∧ opds_books_limit 42 = 42 :=
  ⟨(pagination_clamp_amended 42).1, (pagination_clamp_amended 42).2.1 (by decide)⟩

/- ### C8: unknown format codes and the extension table -/

/-- C8 counterexample: for the unknown format code "DJVU" the extension
used during file resolution is the empty string, not ".epub" — so the
candidate list contains only the on-record filename, with no
extension-appended candidate and no directory-scan match, even though the
book directory holds an .epub file. -/
theorem unknown_format_resolution_cex :
    resolution_ext "DJVU" = "" ∧ resolution_ext "DJVU" ≠ ".epub"
    ∧ possible_files fs_djvu "/books" "Author/Book (1)" "file" "DJVU"
      = ["/books/Author/Book (1)/file"] := by
  refine ⟨rfl, by decide, rfl⟩

/-- C8 (amended): a format code outside the fixed extension table
defaults to ".epub" only where the HTTP-visible download filename and the
feed-entry filename are synthesized; in file resolution (candidate
appending and directory-scan matching) the default is the empty string,
so no extension-based candidates are generated there. -/
theorem unknown_format_extensions (code : String)
    (h : upper_str code ∉ format_extension_map.map Prod.fst) :
    resolution_ext code = "" ∧ download_ext code = ".epub" := by
  have hf : format_extension_map.find? (fun p => p.1 == upper_str code)
      = none := by
    rw [List.find?_eq_none]
    intro p hp
    simp only [beq_iff_eq]
    intro hpe
    exact h (hpe ▸ List.mem_map_of_mem Prod.fst hp)
  exact ⟨by simp [resolution_ext, map_get, hf], by simp [download_ext, map_get, hf]⟩

/-- Closed instance of `unknown_format_extensions` at code "DJVU". -/
theorem unknown_format_extensions_witness :
    resolution_ext "DJVU" = "" ∧ download_ext "DJVU" = ".epub" :=
  unknown_format_extensions "DJVU" (by decide)

/- ### C9: missing-format 404 with available formats listed -/

/-- C9 (confirmed): when the requested format code is not among the
book's formats (case-insensitively), `download_book` answers the 404
message naming the requested format and the complete list of available
format codes — for every filesystem, i.e. before any file path
resolution is attempted. -/
theorem missing_format_404 (c : Codec) (fs : FS) (base_path : String)
    (book : BookDetail) (url_name : String)
    (h : ∀ f ∈ book.formats, upper_str f.format ≠ upper_str url_name) :
    download_book c fs base_path book url_name =
      .formatNotFound (format_not_found_msg (upper_str url_name)
        (book.formats.map DataFormat.format)) := by
  have hf : book.formats.find?
      (fun f => upper_str f.format == upper_str url_name) = none := by
    rw [List.find?_eq_none]
    intro f hfm
    simpa using h f hfm
  simp [download_book, hf]

/-- Closed instance of `missing_format_404`: requesting AZW3 from a book
holding only EPUB and PDF yields the 404 listing both available codes. -/
theorem missing_format_404_witness :
    download_book codec_trivial fs_empty "/books" book_42 "AZW3" =
      .formatNotFound
        "Format AZW3 not found for this book. Available formats: EPUB, PDF" := by
  rw [missing_format_404 codec_trivial fs_empty "/books" book_42 "AZW3"
    (by decide)]
  decide

/- ### C10: totality and fallbacks of safe_convert_text -/

/-- Running `py_try` with a pure handler never produces an error. -/
theorem py_try_ok (x : Except PyErr PyVal) (v : PyVal) :
    ∃ r, py_try x (fun _ => .ok v) = .ok r := by
  cases x with
  | error e => exact ⟨v, rfl⟩
  | ok a => exact ⟨a, rfl⟩

/-- A string containing a mojibake marker cannot be encoded as latin-1:
both marker characters are above U+00FF. -/
theorem encode_latin1_mojibake (t : String) (h : has_mojibake t = true) :
    encode_latin1 t = none := by
  unfold encode_latin1
  rw [if_neg]
  intro hall
  unfold has_mojibake at h
  rcases Bool.or_eq_true_iff.mp h with h1 | h1
  · have hm : '�' ∈ t.toList := by simpa [List.elem_iff] using h1
    have := List.all_eq_true.mp hall '�' hm
    simp at this
  · have hm : '□' ∈ t.toList := by simpa [List.elem_iff] using h1
    have := List.all_eq_true.mp hall '□' hm
    simp at this

/-- Function `safe_convert_text` leaves every `str` input unchanged: the only
repair path re-encodes as latin-1, which always fails on the mojibake
markers that trigger it, and the handler returns the original text. -/
theorem safe_convert_str_unchanged (c : Codec) (t : String) :
    safe_convert_text c (.str t) = .ok (.str t) := by
  show convert_gbk_to_utf8 c (.str t) = .ok (.str t)
  unfold convert_gbk_to_utf8 convert_body
  by_cases h0 : t = ""
  · subst h0
    simp [py_falsy, py_try]
  · have hfal : py_falsy (.str t) = false := by simp [py_falsy, h0]
    rw [hfal]
    by_cases hm : has_mojibake t
    · simp [hm, encode_latin1_mojibake t hm, py_try]
    · simp [hm, py_try]

/-- C10 counterexample: an internal decoding failure does NOT always fall
back to the original text — on a byte string where detection fails and
both strict decodes fail, the code returns the replace-mode decoding (a
`str` with replacement characters), not the original `bytes` value. -/
theorem safe_convert_fallback_cex :
    safe_convert_text codec_trivial (.bytes [255]) = .ok (.str "�")
    ∧ codec_trivial.decode_gbk_strict [255] = none
    ∧ codec_trivial.decode_big5_strict [255] = none
    ∧ PyVal.str "�" ≠ PyVal.bytes [255] := by
  exact ⟨rfl, rfl, rfl, by decide⟩

/-- C10 (amended): `safe_convert_text` is total — it returns without
raising for every input and every codec behaviour; `None` maps to `""`;
a value that is neither str nor bytes maps to its `str()` rendering;
every `str` input is returned unchanged; and whenever the conversion body
raises (encode failure on the str path, unknown-codec lookup on the bytes
path), the original value is returned unchanged.  A strict-decode failure
recovered by replace-mode decoding, however, yields the replacement
text rather than the original (see the counterexample). -/
theorem safe_convert_total_and_fallbacks (c : Codec) :
    (∀ v, ∃ r, safe_convert_text c v = .ok r)
    ∧ safe_convert_text c .pynone = .ok (.str "")
    ∧ (∀ s, safe_convert_text c (.other s) = .ok (.str s))
    ∧ (∀ t, safe_convert_text c (.str t) = .ok (.str t))
    ∧ (∀ v e, convert_body c v = .error e → safe_convert_text c v = .ok v) := by
  refine ⟨?_, rfl, fun s => rfl, safe_convert_str_unchanged c, ?_⟩
  · intro v
    cases v with
    | pynone => exact ⟨.str "", rfl⟩
    | other s => exact ⟨.str s, rfl⟩
    | str t => exact ⟨.str t, safe_convert_str_unchanged c t⟩
    | bytes bs => exact py_try_ok (convert_body c (.bytes bs)) (.bytes bs)
  · intro v e h
    cases v with
    | pynone => simp [convert_body, py_falsy] at h
    | other s => simp [convert_body, py_falsy] at h
    | str t =>
      show convert_gbk_to_utf8 c (.str t) = .ok (.str t)
      unfold convert_gbk_to_utf8
      rw [h]
      rfl
    | bytes bs =>
      show convert_gbk_to_utf8 c (.bytes bs) = .ok (.bytes bs)
      unfold convert_gbk_to_utf8
      rw [h]
      rfl

/-- Closed instance of `safe_convert_total_and_fallbacks`: a lookup
failure on the bytes path returns the original bytes. -/
theorem safe_convert_total_and_fallbacks_witness :
    safe_convert_text codec_lookup_fail (.bytes [1, 2]) = .ok (.bytes [1, 2]) :=
  (safe_convert_total_and_fallbacks codec_lookup_fail).2.2.2.2
    (.bytes [1, 2]) .lookupError rfl

/- ### C5 and C7: download filename synthesis -/

/-- Every value `download_ext` can return. -/
theorem download_ext_mem (code : String) :
    download_ext code ∈ ".epub" :: format_extension_map.map Prod.snd := by
  unfold download_ext map_get
  rcases hf : format_extension_map.find? (fun p => p.1 == upper_str code)
    with _ | p
  · simp only [hf]
    exact List.mem_cons_self _ _
  · simp only [hf]
    exact List.mem_cons_of_mem _ (List.mem_map_of_mem Prod.snd
      (List.mem_of_find?_eq_some hf))

/-- Every possible download extension is its own splitext base (a bare
dotfile name has no extension) and is nonempty. -/
theorem download_ext_props (code : String) :
    splitext_base (download_ext code).toList = (download_ext code).toList
    ∧ (download_ext code).toList ≠ [] := by
  have hall : ∀ e ∈ ".epub" :: format_extension_map.map Prod.snd,
      splitext_base e.toList = e.toList ∧ e.toList ≠ [] := by decide
  exact hall _ (download_ext_mem code)

/-- The fallback filename `书籍_{id}{ext}` is nonempty and differs from
the bare extension. -/
theorem fallback_name_ne (book_id : Nat) (ext : List Char) :
    fallback_name book_id ext ≠ [] ∧ fallback_name book_id ext ≠ ext := by
  constructor
  · simp [fallback_name]
  · intro h
    have := congrArg List.length h
    simp [fallback_name] at this
    omega

/-- A candidate filename that survives the final guard of the synthesis
is nonempty and differs from the bare extension. -/
theorem candidate_ok (fmt : String) (f : List Char)
    (hg : ¬(splitext_base f = [] ∨ splitext_base f = (download_ext fmt).toList
        ∨ py_strip (splitext_base f) = [])) :
    f ≠ [] ∧ f ≠ (download_ext fmt).toList := by
  push_neg at hg
  obtain ⟨hb1, hb2, _⟩ := hg
  refine ⟨fun hf => ?_, fun hf => ?_⟩
  · rw [hf] at hb1
    exact hb1 rfl
  · rw [hf, (download_ext_props fmt).1] at hb2
    exact hb2 rfl

/-- C5 counterexample: the fallback filename for an empty title is
`书籍_{id}{ext}` (Chinese "book"), not the claimed `book_{id}{ext}`. -/
theorem download_filename_prefix_cex :
    safe_download_filename 7 "EPUB" [] = "书籍_7.epub".toList
    ∧ safe_download_filename 7 "EPUB" [] ≠ "book_7.epub".toList := by decide

/-- C5 (amended): a title that is empty or whitespace-only after
normalization always yields the fallback filename `书籍_{id}{ext}`
(the literal prefix is the Chinese word for "book", not `book_`), and
for every title the synthesized filename is nonempty and never the bare
extension. -/
theorem download_filename_empty_title (book_id : Nat) (fmt : String) :
    (∀ t, py_strip t = [] →
      safe_download_filename book_id fmt t
        = fallback_name book_id (download_ext fmt).toList)
    ∧ (∀ t, safe_download_filename book_id fmt t ≠ []
        ∧ safe_download_filename book_id fmt t ≠ (download_ext fmt).toList) := by
  constructor
  · intro t h
    simp only [safe_download_filename]
    rw [if_pos (Or.inr h)]
  · intro t
    simp only [safe_download_filename]
    split_ifs with h1 hs hg hg2
    · exact fallback_name_ne book_id (download_ext fmt).toList
    · exact fallback_name_ne book_id (download_ext fmt).toList
    · exact candidate_ok fmt _ hg
    · exact fallback_name_ne book_id (download_ext fmt).toList
    · exact candidate_ok fmt _ hg2

/-- Closed instance of `download_filename_empty_title`: the whitespace
title " " yields the fallback name for book 7 in EPUB. -/
theorem download_filename_empty_title_witness :
    safe_download_filename 7 "EPUB" " ".toList = "书籍_7.epub".toList
    ∧ safe_download_filename 7 "EPUB" " ".toList ≠ [] := by
  constructor
  · rw [(download_filename_empty_title 7 "EPUB").1 " ".toList (by decide)]
    decide
  · exact ((download_filename_empty_title 7 "EPUB").2 " ".toList).1

/-- C7 counterexample: the bare-extension title ".epub" is already
sanitized (no path-illegal characters, no spaces) and already ends with
the correct extension, yet synthesis does not return it — the final
guard fires and produces the fallback name instead. -/
theorem download_filename_idempotent_cex :
    (∀ ch ∈ ".epub".toList, illegal_chars.contains ch = false ∧ ch ≠ ' ')
    ∧ ends_with_ch (lower_chars ".epub".toList)
        (lower_chars (download_ext "EPUB").toList) = true
    ∧ safe_download_filename 5 "EPUB" ".epub".toList ≠ ".epub".toList
    ∧ safe_download_filename 5 "EPUB" ".epub".toList = "书籍_5.epub".toList := by
  decide

/-- C7 (amended): synthesis is idempotent on an already-sanitized,
already-suffixed title provided additionally that the title is not
whitespace-only and its splitext base name is neither the bare extension
nor whitespace-only; titles violating those side conditions (such as
".epub" itself) are replaced by the fallback name. -/
theorem download_filename_idempotent (book_id : Nat) (fmt : String)
    (t : List Char)
    (hclean : ∀ ch ∈ t, illegal_chars.contains ch = false ∧ ch ≠ ' ')
    (hsuffix : ends_with_ch (lower_chars t)
      (lower_chars (download_ext fmt).toList) = true)
    (hstrip : py_strip t ≠ [])
    (hbase_ext : splitext_base t ≠ (download_ext fmt).toList)
    (hbase_ws : py_strip (splitext_base t) ≠ []) :
    safe_download_filename book_id fmt t = t := by
  have hne : t ≠ [] := by
    intro h
    exact hstrip (by rw [h]; rfl)
  have hfix1 : strip_illegal t = t :=
    List.filter_eq_self.mpr (fun ch hch => by
      rw [(hclean ch hch).1]
      rfl)
  have hfix2 : spaces_to_under t = t := by
    unfold spaces_to_under
    rw [List.map_congr_left (fun ch hch => if_neg (by
      simpa using (hclean ch hch).2))]
    exact List.map_id t
  have hbase_ne : splitext_base t ≠ [] := by
    intro h
    exact hbase_ws (by rw [h]; rfl)
  simp only [safe_download_filename]
  rw [if_neg (by
    rintro (h | h)
    · exact hne h
    · exact hstrip h)]
  rw [hfix1, hfix2, if_pos hsuffix]
  rw [if_neg (by
    rintro (h | h | h)
    · exact hbase_ne h
    · exact hbase_ext h
    · exact hbase_ws h)]

/-- Closed instance of `download_filename_idempotent` at the sanitized,
suffixed title "Three_Body.epub". -/
theorem download_filename_idempotent_witness :
    safe_download_filename 3 "EPUB" "Three_Body.epub".toList
      = "Three_Body.epub".toList :=
  download_filename_idempotent 3 "EPUB" "Three_Body.epub".toList
    (by decide) (by decide) (by decide) (by decide) (by decide)

/- ### C1: the count path and the list path apply the same predicate -/

/-- The listing clause carries exactly the `filters` conditions. -/
theorem list_clause_snd (F : Filters) :
    (list_clause F).map Prod.snd = list_filters F := by
  unfold list_clause
  cases h : list_filters F with
  | nil => simp [h]
  | cons c rest => simp [h, List.map_map, Function.comp]

/-- The hand-rebuilt count clause carries exactly the same conditions as
the listing clause, in the same order. -/
theorem count_clause_snd (F : Filters) :
    (count_clause F).map Prod.snd = list_filters F := by
  unfold count_clause list_filters opt_cond
  cases hs : truthy F.search <;> cases ha : truthy F.author <;>
    cases hse : truthy F.series <;> cases ht : truthy F.tag <;>
    simp [hs, ha, hse, ht]

/-- Pointwise equality of the two WHERE predicates. -/
theorem clause_holds_count_eq_list (lib : Library) (F : Filters) (b : Book) :
    clause_holds lib (count_clause F) b
      = clause_holds lib (list_clause F) b := by
  unfold clause_holds
  have h1 : ∀ (items : List (Kw × Cond)),
      items.all (fun kc => cond_holds lib kc.2 b)
        = (items.map Prod.snd).all (fun c => cond_holds lib c b) := by
    intro items
    induction items with
    | nil => rfl
    | cons kc rest ih => simp [List.all_cons, ih]
  rw [h1, h1, count_clause_snd, list_clause_snd]

/-- The two paths filter the books table identically. -/
theorem filtered_books_eq (lib : Library) (F : Filters) :
    lib.books.filter (fun b => clause_holds lib (count_clause F) b)
      = lib.books.filter (fun b => clause_holds lib (list_clause F) b) :=
  List.filter_congr (fun b _ => by rw [clause_holds_count_eq_list])

/-- C1 (confirmed): for every filter combination, the count computed by
`_get_filtered_count` equals the number of distinct book ids
`_get_filtered_books` returns with `limit` equal to that count and
`offset = 0` — the two hand-built WHERE clauses compose the same boolean
predicate. -/
theorem count_query_matches_list_query (lib : Library) (F : Filters)
    (hids : (lib.books.map Book.id).Nodup) :
    _get_filtered_count lib F
      = ((_get_filtered_books lib F (_get_filtered_count lib F) 0).map
          Book.id).dedup.length := by
  unfold _get_filtered_count _get_filtered_books
  rw [filtered_books_eq lib F]
  set fl := lib.books.filter (fun b => clause_holds lib (list_clause F) b)
    with hfl
  have hsub : List.Sublist fl lib.books := List.filter_sublist _
  have hnodup : (fl.map Book.id).Nodup :=
    List.Nodup.sublist (hsub.map Book.id) hids
  have hcount : (fl.map Book.id).dedup.length = fl.length := by
    rw [List.dedup_eq_self.mpr hnodup, List.length_map]
  rw [hcount]
  have hperm : List.Perm (List.insertionSort book_ord fl) fl :=
    List.perm_insertionSort book_ord fl
  have hlen : (List.insertionSort book_ord fl).length = fl.length :=
    hperm.length_eq
  have hpermmap : List.Perm ((List.insertionSort book_ord fl).map Book.id)
      (fl.map Book.id) :=
    hperm.map Book.id
  rw [List.drop_zero, ← hlen, List.take_length,
    List.dedup_eq_self.mpr (hpermmap.nodup_iff.mpr hnodup), List.length_map,
    hlen]

/-- Closed instance of `count_query_matches_list_query` on a concrete
library and author filter. -/
theorem count_query_matches_list_query_witness :
    _get_filtered_count lib_demo filters_ann
      = ((_get_filtered_books lib_demo filters_ann
          (_get_filtered_count lib_demo filters_ann) 0).map
          Book.id).dedup.length :=
  count_query_matches_list_query lib_demo filters_ann (by decide)

/- ### C3: page disjointness, ordering, and the missing id tie-break -/

/-- C3 counterexample: the listing query orders by last-modified DESC
only — it requests no id tie-break, so books sharing a timestamp come
back in table order, here ids [2, 1], violating the claimed
(last-modified desc, id asc) ordering key. -/
theorem ties_not_id_ascending_cex :
    (_get_filtered_books lib_ties no_filters 20 0).map Book.id = [2, 1]
    ∧ ¬ List.Pairwise claimed_page_order
        (_get_filtered_books lib_ties no_filters 20 0) := by
  exact ⟨by decide, by decide⟩

/-- C3 (amended): for every filter set, consecutive pages (same filters,
offsets `o` and `o + limit`) have disjoint book-id sets, and every page
is sorted by last-modified descending; the code specifies no id
tie-break, so the order among books sharing a timestamp follows table
order rather than ascending id (see the counterexample). -/
theorem pages_disjoint_and_sorted (lib : Library) (F : Filters)
    (limit offset : Nat)
    (hids : (lib.books.map Book.id).Nodup) :
    List.Disjoint
      ((_get_filtered_books lib F limit offset).map Book.id)
      ((_get_filtered_books lib F limit (offset + limit)).map Book.id)
    ∧ List.Sorted book_ord (_get_filtered_books lib F limit offset) := by
  unfold _get_filtered_books
  set s := List.insertionSort book_ord
    (lib.books.filter (fun b => clause_holds lib (list_clause F) b)) with hs
  constructor
  · have hnodup : (s.map Book.id).Nodup := by
      have hsub : List.Sublist (lib.books.filter
          (fun b => clause_holds lib (list_clause F) b)) lib.books :=
        List.filter_sublist _
      have hfl : ((lib.books.filter
          (fun b => clause_holds lib (list_clause F) b)).map Book.id).Nodup :=
        List.Nodup.sublist (hsub.map Book.id) hids
      exact (((List.perm_insertionSort book_ord _).map Book.id).nodup_iff).mpr hfl
    have h2 : s.drop (offset + limit) = (s.drop offset).drop limit :=
      (List.drop_drop limit offset s).symm
    set t := s.drop offset with ht
    have htnodup : (t.map Book.id).Nodup :=
      List.Nodup.sublist ((List.drop_sublist offset s).map Book.id) hnodup
    have hsplit : t.map Book.id
        = (t.take limit).map Book.id ++ (t.drop limit).map Book.id := by
      rw [← List.map_append, List.take_append_drop]
    have hdisj : List.Disjoint ((t.take limit).map Book.id)
        ((t.drop limit).map Book.id) := by
      rw [hsplit] at htnodup
      exact (List.nodup_append.mp htnodup).2.2
    rw [h2]
    intro a ha hb
    exact hdisj ha
      ((((List.take_sublist limit (t.drop limit)).map Book.id).subset) hb)
  · have hsorted : List.Sorted book_ord s :=
      List.sorted_insertionSort book_ord _
    exact List.Pairwise.sublist
      ((List.take_sublist limit (s.drop offset)).trans
        (List.drop_sublist offset s)) hsorted

/-- Closed instance of `pages_disjoint_and_sorted` on the demo library. -/
theorem pages_disjoint_and_sorted_witness :
    List.Disjoint
      ((_get_filtered_books lib_demo no_filters 1 0).map Book.id)
      ((_get_filtered_books lib_demo no_filters 1 1).map Book.id)
    ∧ List.Sorted book_ord (_get_filtered_books lib_demo no_filters 1 0) :=
  pages_disjoint_and_sorted lib_demo no_filters 1 0 (by decide)

/- ### C4: total page count and the zero-match feed -/

/-- C4 counterexample: with zero matching books the page count
`(total + limit - 1) // limit` is 0, not the claimed minimum of 1, and
the feed title reports page 1 of 0 rather than 1 of 1. -/
theorem zero_total_pages_cex :
    total_pages 0 20 = 0
    ∧ (opds_books_feed lib_empty filters_liu 20 0).total_results = 0
    ∧ (opds_books_feed lib_empty filters_liu 20 0).entries = []
    ∧ (opds_books_feed lib_empty filters_liu 20 0).title
      = "作者: Liu Cixin - 第 1/0 页" := by
  exact ⟨rfl, by decide, by decide, by decide⟩

/-- C4 (amended): the page count `(total + limit - 1) // limit` is the
exact ceiling of `total / limit` (characterized by its Galois
connection), hence 0 — not 1 — when `total = 0`; and a filter matching
zero books still yields a well-formed feed with `totalResults = 0` and
zero entries (its title reports page 1 of 0). -/
theorem total_pages_ceil_and_empty_feed :
    (∀ total limit k : Nat, 1 ≤ limit →
      (total_pages total limit ≤ k ↔ total ≤ limit * k))
    ∧ (∀ lib F limit offset, _get_filtered_count lib F = 0 →
        (opds_books_feed lib F limit offset).total_results = 0
        ∧ (opds_books_feed lib F limit offset).entries = []) := by
  constructor
  · intro total limit k hl
    unfold total_pages
    rw [Nat.div_le_iff_le_mul_add_pred hl]
    generalize limit * k = m
    omega
  · intro lib F limit offset h
    have hnil : lib.books.filter
        (fun b => clause_holds lib (list_clause F) b) = [] := by
      rw [← filtered_books_eq lib F]
      unfold _get_filtered_count at h
      have h1 : ((lib.books.filter
          (fun b => clause_holds lib (count_clause F) b)).map Book.id).dedup
            = [] := List.length_eq_zero.mp h
      have h2 : (lib.books.filter
          (fun b => clause_holds lib (count_clause F) b)).map Book.id = [] :=
        (List.dedup_eq_nil _).mp h1
      exact List.map_eq_nil_iff.mp h2
    constructor
    · exact h
    · show _get_filtered_books lib F limit offset = []
      unfold _get_filtered_books
      rw [hnil]
      simp [List.insertionSort]

/-- Closed instance of `total_pages_ceil_and_empty_feed`: 45 results at
20 per page fit in 3 pages but not 2, and the empty feed has no
entries. -/
theorem total_pages_ceil_and_empty_feed_witness :
    (total_pages 45 20 ≤ 3 ∧ ¬ (total_pages 45 20 ≤ 2))
    ∧ (opds_books_feed lib_empty no_filters 20 0).entries = [] := by
  refine ⟨⟨?_, ?_⟩, ?_⟩
  · exact (total_pages_ceil_and_empty_feed.1 45 20 3 (by decide)).mpr (by decide)
  · intro hcon
    exact absurd ((total_pages_ceil_and_empty_feed.1 45 20 2 (by decide)).mp
      hcon) (by decide)
  · exact (total_pages_ceil_and_empty_feed.2 lib_empty no_filters 20 0
      (by decide)).2
